import Mathlib

/-!
Shallow embedding of the pontocarro-api backend (Express + Mongoose controllers)
and proofs about its documented behaviour.

Conventions of the embedding:
* Mongo collections are lists of row structures; `find?` models `findOne`
  (first match), `filter` models `deleteMany`/`deleteOne` on a unique key.
* HTTP handlers are pure functions returning a response (status, message)
  together with the updated collections.
* JWTs are modelled as records (subject id, issue time, expiry); `jwt.verify`
  succeeds exactly on well-formed, unexpired tokens. A raw request token is
  either `malformed` (bad signature / garbage) or a well-formed `signed` token.
* Times are naturals (seconds).
-/

namespace PontoCarro

/-- A signed JWT as produced by `jwt.sign({ id }, JWT_SECRET, { expiresIn })`:
subject id, issue time and expiry determine the token string. -/
structure Jwt where
  id : String
  iat : Nat
  exp : Nat
deriving DecidableEq

/-- A token value presented by a client: either garbage / wrongly signed data,
or a genuinely signed token. -/
inductive TokenInput where
  | malformed
  | signed (j : Jwt)
deriving DecidableEq

/-- `jwt.verify(token, JWT_SECRET)`: fails (throws `JsonWebTokenError`) on a
malformed token, fails (`TokenExpiredError`) on an expired one, otherwise
returns the decoded payload. -/
def jwtVerify (t : TokenInput) (now : Nat) : Option Jwt :=
  match t with
  | .malformed => none
  | .signed j => if now < j.exp then some j else none

/-- `jwt.sign({ id }, JWT_SECRET, { expiresIn: '1h' })`. -/
def signAccess (id : String) (now : Nat) : Jwt :=
  ⟨id, now, now + 3600⟩

/-- `jwt.sign({ id }, JWT_SECRET, { expiresIn: '7d' })`. -/
def signRefresh (id : String) (now : Nat) : Jwt :=
  ⟨id, now, now + 604800⟩

/-- A row of the `User` collection (the fields the verified controllers read). -/
structure UserRow where
  id : String
  password : String := ""
  refreshToken : Option Jwt := none
  resetPasswordToken : Option String := none
  resetPasswordExpires : Option Nat := none
deriving DecidableEq

/-- An HTTP JSON response: status code and `message` field. -/
structure Resp where
  status : Nat
  message : String
deriving DecidableEq

/-- `POST /auth/refresh-token` (`authController.refreshAccessToken`):
verify the refresh token as a JWT; look the user up by the decoded id;
401 unless the stored `user.refreshToken` is exactly the presented token;
on success issue a new access token and rotate the stored refresh token. -/
def refreshAccessToken (db : List UserRow) (tok : Option TokenInput) (now : Nat) :
    Resp × List UserRow :=
  match tok with
  | none => (⟨401, "Refresh token não fornecido"⟩, db)
  | some t =>
    match jwtVerify t now with
    | none => (⟨401, "Refresh token inválido ou expirado"⟩, db)
    | some j =>
      match db.find? (fun u => u.id == j.id) with
      | none => (⟨401, "Refresh token inválido ou expirado"⟩, db)
      | some u =>
        if u.refreshToken == some j then
          let newRefreshToken := signRefresh u.id now
          (⟨200, "Novo access token gerado com sucesso"⟩,
           db.map (fun w => if w.id == u.id then { w with refreshToken := some newRefreshToken } else w))
        else
          (⟨401, "Refresh token inválido ou expirado"⟩, db)

/-- Result of the authentication middleware: `status` is `none` when the
request was passed on (`next()` called), `userId` is the id attached to the
request (the code attaches it right after verification, before the user
lookup). -/
structure MwResult where
  status : Option Nat
  message : Option String
  userId : Option String
  calledNext : Bool
deriving DecidableEq

/-- `authMiddleware.authenticateUser`: 401 when the bearer token is missing;
401 (`jwt.verify` throws) when it is malformed or expired; otherwise the
decoded id is attached, the user is looked up, and a missing user yields 404
(`'User not found'`); otherwise `next()` is called. -/
def authenticateUser (db : List UserRow) (tok : Option TokenInput) (now : Nat) : MwResult :=
  match tok with
  | none => ⟨some 401, some "No token, authorization denied", none, false⟩
  | some t =>
    match jwtVerify t now with
    | none => ⟨some 401, some "Token is not valid", none, false⟩
    | some j =>
      match db.find? (fun u => u.id == j.id) with
      | none => ⟨some 404, some "User not found", some j.id, false⟩
      | some _ => ⟨none, none, some j.id, true⟩

/-- The zod password rule of `createUserSchema`: length in [8, 50] and the
regex `^(?=.*[a-z])(?=.*[A-Z])(?=.*\d)(?=.*[@$!%*?&])[A-Za-z\d@$!%*?&]{8,}$`. -/
def specialChar (c : Char) : Bool :=
  c == '@' || c == '$' || c == '!' || c == '%' || c == '*' || c == '?' || c == '&'

def allowedPwChar (c : Char) : Bool :=
  c.isLower || c.isUpper || c.isDigit || specialChar c

def validPassword (p : String) : Bool :=
  decide (8 ≤ p.length) && decide (p.length ≤ 50) &&
  p.data.any Char.isLower && p.data.any Char.isUpper &&
  p.data.any Char.isDigit && p.data.any specialChar &&
  p.data.all allowedPwChar

/-- The `findOne` predicate of `resetPassword`: reset token matches and
`resetPasswordExpires > now`. -/
def resetMatch (resetToken : String) (now : Nat) (u : UserRow) : Bool :=
  u.resetPasswordToken == some resetToken &&
  (match u.resetPasswordExpires with
   | some e => decide (now < e)
   | none => false)

/-- `POST /auth/reset-password/:resetToken` (`authController.resetPassword`):
look the user up by exact reset token plus unexpired expiry; 400 if absent;
then validate the new password with the zod schema (a `ZodError` is caught
and mapped to 400 before any write); on success store the hashed password
and clear the reset-token fields. `hash` abstracts `bcrypt.hash` with a
fresh salt. -/
def resetPassword (db : List UserRow) (resetToken pw : String) (now : Nat)
    (hash : String → String) : Resp × List UserRow :=
  match db.find? (resetMatch resetToken now) with
  | none => (⟨400, "Token de redefinição de senha inválido ou expirado."⟩, db)
  | some u =>
    if validPassword pw then
      (⟨200, "Senha redefinida com sucesso!"⟩,
       db.map (fun w => if w.id == u.id then
         { w with password := hash pw, resetPasswordToken := none, resetPasswordExpires := none }
        else w))
    else
      (⟨400, "Erro de validação"⟩, db)

/-- A row of the `Vehicle` collection (the fields the verified controllers
read; heavy fields such as `description` and `features` are irrelevant to the
claims and omitted). -/
structure VehicleRow where
  id : String
  ownerId : String
  title : String := ""
  brand : String := ""
  vehicleModel : String := ""
  engine : String := ""
  year : Nat := 0
  price : Nat := 0
  mileage : Nat := 0
  state : String := ""
  city : String := ""
  fuel : String := ""
  transmission : String := ""
  bodyType : String := ""
  color : String := ""
  createdAt : Nat := 0
deriving DecidableEq

/-- A row of the `Image` collection. -/
structure ImageRow where
  id : String
  vehicleId : String
  imageUrl : String := ""
  cloudinaryPublicId : Option String := none
deriving DecidableEq

/-- `Image.countDocuments({ vehicle_id: vehicleId })`. -/
def countImages (images : List ImageRow) (vehicleId : String) : Nat :=
  (images.filter (fun i => i.vehicleId == vehicleId)).length

/-- JavaScript `s.trim() === ''`: the string consists of whitespace only. -/
def blankStr (s : String) : Bool :=
  s.data.all (fun c => c == ' ' || c == '\t' || c == '\n' || c == '\r')

/-- `POST /vehicles/:id/images` (`imageController.uploadImages`):
400 if no files attached; 400 on a blank vehicle id; 404 unless the vehicle
exists and is owned by the caller; 400 reporting the current image count when
existing + new would exceed 10; otherwise one `Image` row is saved per file.
`files` is the number of attached files. -/
def uploadImages (vehicles : List VehicleRow) (images : List ImageRow)
    (ownerId vehicleId : String) (files : Nat) : Resp × List ImageRow :=
  if files == 0 then
    (⟨400, "No image files provided"⟩, images)
  else if blankStr vehicleId then
    (⟨400, "Invalid vehicle ID"⟩, images)
  else
    match vehicles.find? (fun v => v.id == vehicleId && v.ownerId == ownerId) with
    | none =>
      (⟨404, "Vehicle not found or you do not have permission to upload images for this vehicle"⟩,
       images)
    | some _ =>
      if countImages images vehicleId + files > 10 then
        (⟨400, "Cannot upload more than 10 images. You already have " ++
               toString (countImages images vehicleId) ++ " images."⟩, images)
      else
        (⟨200, "Images uploaded successfully"⟩,
         images ++ (List.range files).map (fun k =>
           { id := vehicleId ++ "/" ++ toString (images.length + k), vehicleId := vehicleId }))

/-- An upload request: caller id, vehicle id, number of attached files. -/
structure UploadReq where
  ownerId : String
  vehicleId : String
  files : Nat

/-- A sequence of image-upload requests, applied in order. -/
def runUploads (vehicles : List VehicleRow) (reqs : List UploadReq)
    (images : List ImageRow) : List ImageRow :=
  reqs.foldl (fun imgs r => (uploadImages vehicles imgs r.ownerId r.vehicleId r.files).2) images

/-- `DELETE /vehicles/:id/images/:imageId` (`imageController.deleteImage`):
404 unless the vehicle exists and is owned by the caller; 404 unless the image
row exists for that vehicle; if the row has a stored Cloudinary public id,
`cloudinary.uploader.destroy` is awaited inside the surrounding `try` — when
that call throws, control jumps to the `catch` (500) before `Image.deleteOne`
runs; otherwise the row is deleted. `destroyThrows` models whether the remote
removal call throws. -/
def deleteImage (vehicles : List VehicleRow) (images : List ImageRow)
    (ownerId vehicleId imageId : String) (destroyThrows : Bool) : Resp × List ImageRow :=
  match vehicles.find? (fun v => v.id == vehicleId && v.ownerId == ownerId) with
  | none =>
    (⟨404, "Vehicle not found or you do not have permission to delete images for this vehicle"⟩,
     images)
  | some _ =>
    match images.find? (fun i => i.id == imageId && i.vehicleId == vehicleId) with
    | none => (⟨404, "Image not found for this vehicle."⟩, images)
    | some imageToDelete =>
      if imageToDelete.cloudinaryPublicId.isSome && destroyThrows then
        (⟨500, "Error deleting image"⟩, images)
      else
        (⟨200, "Image deleted successfully"⟩,
         images.filter (fun i => !(i.id == imageId)))

/-- `DELETE /vehicles/:id` (`vehicleController.deleteVehicle`): 404 unless the
vehicle exists and is owned by the caller; Cloudinary folder cleanup happens
inside its own `try`/`catch` (failures only logged); then all `Image` rows of
the vehicle and the vehicle row itself are removed. -/
def deleteVehicle (vehicles : List VehicleRow) (images : List ImageRow)
    (ownerId vehicleId : String) : Resp × (List VehicleRow × List ImageRow) :=
  match vehicles.find? (fun v => v.id == vehicleId && v.ownerId == ownerId) with
  | none =>
    (⟨404, "Vehicle not found or you do not have permission to delete this vehicle"⟩,
     (vehicles, images))
  | some _ =>
    let images' := images.filter (fun i => !(i.vehicleId == vehicleId))
    let vehicles' := vehicles.filter (fun v => !(v.id == vehicleId && v.ownerId == ownerId))
    (⟨200, "Veículo excluído com sucesso"⟩, (vehicles', images'))

/-- `DELETE /user/delete` (`userController.deleteUserAccount`):
`Vehicle.deleteMany({ owner_id: userId })` runs first, then
`User.findByIdAndDelete(userId)`; no `Image` operation is issued. -/
def deleteUserAccount (users : List UserRow) (vehicles : List VehicleRow)
    (images : List ImageRow) (userId : String) :
    Resp × (List UserRow × List VehicleRow × List ImageRow) :=
  let vehicles' := vehicles.filter (fun v => !(v.ownerId == userId))
  match users.find? (fun u => u.id == userId) with
  | none => (⟨404, "Usuário não encontrado"⟩, (users, vehicles', images))
  | some _ =>
    (⟨200, "Conta de usuário excluída com sucesso"⟩,
     (users.filter (fun u => !(u.id == userId)), vehicles', images))

/-- An update payload for `PUT /vehicles/:id` after zod validation: the
optional-fields schema makes every field optional (only a representative
subset is carried here). -/
structure VehiclePatch where
  title : Option String := none
  price : Option Nat := none
  year : Option Nat := none
  mileage : Option Nat := none
deriving DecidableEq

/-- The request body as the controller sees it: either it fails the
zod schema (`ZodError` → 400) or it parses to a patch. -/
inductive VehicleBody where
  | invalid
  | valid (patch : VehiclePatch)
deriving DecidableEq

/-- `Object.assign(vehicle, validatedData)` followed by the explicit numeric
re-assignments. -/
def applyPatch (p : VehiclePatch) (v : VehicleRow) : VehicleRow :=
  { v with title := p.title.getD v.title, price := p.price.getD v.price,
           year := p.year.getD v.year, mileage := p.mileage.getD v.mileage }

/-- `PUT /vehicles/:id` (`vehicleController.updateVehicle`): the body is
validated first (`ZodError` → 400); then `findOne({ _id: id, owner_id })`:
404 when the vehicle is missing or owned by someone else; otherwise the patch
is merged and saved. -/
def updateVehicle (vehicles : List VehicleRow) (ownerId vehicleId : String)
    (body : VehicleBody) : Resp × List VehicleRow :=
  match body with
  | .invalid => (⟨400, "Erro de Validação"⟩, vehicles)
  | .valid patch =>
    match vehicles.find? (fun v => v.id == vehicleId && v.ownerId == ownerId) with
    | none =>
      (⟨404, "Vehicle not found or you do not have permission to edit this vehicle"⟩, vehicles)
    | some _ =>
      (⟨200, "Veículo atualizado com sucesso"⟩,
       vehicles.map (fun v => if v.id == vehicleId && v.ownerId == ownerId then applyPatch patch v else v))

/-- Unicode NFD maps each precomposed Latin letter to its base letter followed
by combining marks; this table carries the base letter for the characters the
data set uses. -/
def baseChar (c : Char) : Char :=
  match c with
  | 'á' | 'à' | 'â' | 'ã' | 'ä' => 'a'
  | 'Á' | 'À' | 'Â' | 'Ã' | 'Ä' => 'A'
  | 'é' | 'è' | 'ê' | 'ë' => 'e'
  | 'É' | 'È' | 'Ê' | 'Ë' => 'E'
  | 'í' | 'ì' | 'î' | 'ï' => 'i'
  | 'Í' | 'Ì' | 'Î' | 'Ï' => 'I'
  | 'ó' | 'ò' | 'ô' | 'õ' | 'ö' => 'o'
  | 'Ó' | 'Ò' | 'Ô' | 'Õ' | 'Ö' => 'O'
  | 'ú' | 'ù' | 'û' | 'ü' => 'u'
  | 'Ú' | 'Ù' | 'Û' | 'Ü' => 'U'
  | 'ç' => 'c'
  | 'Ç' => 'C'
  | 'ñ' => 'n'
  | 'Ñ' => 'N'
  | c => c

/-- One character of `str.normalize("NFD").replace(/\p{Diacritic}/gu, "")`:
combining diacritical marks (U+0300–U+036F) are dropped, precomposed letters
decompose to their base letter. -/
def stripAccentsChar (c : Char) : Option Char :=
  if 0x300 ≤ c.toNat && c.toNat ≤ 0x36F then none else some (baseChar c)

/-- `vehicleController.stripAccents`. -/
def stripAccents (s : String) : String :=
  String.mk (s.data.filterMap stripAccentsChar)

/-- `leadMatch p s`: `s` begins with the character sequence `p`. -/
def leadMatch : List Char → List Char → Bool
  | [], _ => true
  | _ :: _, [] => false
  | p :: ps, c :: cs => p == c && leadMatch ps cs

/-- `substrMatch p s`: `p` occurs contiguously somewhere in `s`. -/
def substrMatch (p : List Char) : List Char → Bool
  | [] => leadMatch p []
  | c :: cs => leadMatch p (c :: cs) || substrMatch p cs

/-- `new RegExp(pat, 'i').test(s)` for a pattern without regex metacharacters:
case-insensitive containment. -/
def testI (pat s : String) : Bool :=
  substrMatch (pat.data.map Char.toLower) (s.data.map Char.toLower)

/-- JavaScript `s.split(' ')`: split on each single space character. -/
def splitOnSpace : List Char → List (List Char)
  | [] => [[]]
  | c :: cs =>
    let rest := splitOnSpace cs
    if c == ' ' then [] :: rest
    else
      match rest with
      | [] => [[c]]
      | w :: ws => (c :: w) :: ws

/-- `name.split(' ').filter(Boolean)`: whitespace tokens of the free-text
search term, empty strings removed. -/
def nameKeywords (n : String) : List String :=
  ((splitOnSpace n.data).map String.mk).filter (fun s => !(s == ""))

/-- JavaScript `parseInt(s)` restricted to the usage here: value of the
longest leading digit run, `NaN` (`none`) when there is none. -/
def jsParseInt (s : String) : Option Nat :=
  let ds := s.data.takeWhile Char.isDigit
  match ds with
  | [] => none
  | _ => some (ds.foldl (fun a c => a * 10 + (c.toNat - 48)) 0)

/-- One free-text keyword clause of `searchVehicles`: the keyword is
accent-stripped, then OR-matched case-insensitively against
title/brand/model/color/state/city, plus an exact year match when the keyword
parses as an integer. -/
def keywordMatches (keyword : String) (v : VehicleRow) : Bool :=
  let strippedKeyword := stripAccents keyword
  testI strippedKeyword v.title || testI strippedKeyword v.brand ||
  testI strippedKeyword v.vehicleModel || testI strippedKeyword v.color ||
  testI strippedKeyword v.state || testI strippedKeyword v.city ||
  (match jsParseInt keyword with
   | some yearSearch => v.year == yearSearch
   | none => false)

/-- The query parameters of `GET /vehicles/search` after numeric parsing
(a `none` numeric field models an absent or unparsable parameter, which the
controller silently ignores). -/
structure SearchQuery where
  name : Option String := none
  brand : Option String := none
  vehicleModel : Option String := none
  engine : Option String := none
  year : Option Nat := none
  minPrice : Option Nat := none
  maxPrice : Option Nat := none
  state : Option String := none
  city : Option String := none
  fuel : Option String := none
  transmission : Option String := none
  bodyType : Option String := none
  color : Option String := none
  minMileage : Option Nat := none
  maxMileage : Option Nat := none
  minYear : Option Nat := none
  maxYear : Option Nat := none
deriving DecidableEq

/-- The Mongo condition accumulated in `filter.year`: an exact number, or a
range object. Spreading a number into `{ ...filter.year, $gte }` drops the
exact value, mirroring the JS object-spread semantics. -/
inductive YearCond where
  | anyYear
  | exactYear (y : Nat)
  | range (lo hi : Option Nat)
deriving DecidableEq

/-- Builds `filter.year` in source order: exact `year`, then `minYear`
(`$gte`), then `maxYear` (`$lte`). -/
def yearCond (q : SearchQuery) : YearCond :=
  let c : YearCond := match q.year with
    | some y => .exactYear y
    | none => .anyYear
  let c : YearCond := match q.minYear with
    | some lo =>
      match c with
      | .range _ hi => .range (some lo) hi
      | _ => .range (some lo) none
    | none => c
  match q.maxYear with
  | some hi =>
    match c with
    | .range lo _ => .range lo (some hi)
    | _ => .range none (some hi)
  | none => c

def yearHolds (c : YearCond) (y : Nat) : Bool :=
  match c with
  | .anyYear => true
  | .exactYear e => y == e
  | .range lo hi =>
    (match lo with | some l => decide (l ≤ y) | none => true) &&
    (match hi with | some h => decide (y ≤ h) | none => true)

def rangeHolds (lo hi : Option Nat) (x : Nat) : Bool :=
  (match lo with | some l => decide (l ≤ x) | none => true) &&
  (match hi with | some h => decide (x ≤ h) | none => true)

def optCheck {α : Type} (o : Option α) (p : α → Bool) : Bool :=
  match o with
  | none => true
  | some x => p x

/-- The dynamic Mongo filter of `searchVehicles`, as a predicate on a vehicle
row: every whitespace token of `name` must match somewhere (logical AND across
tokens); discrete text filters are case-insensitive substring matches (brand,
model, engine and color are accent-stripped first, state/city/fuel/
transmission/bodyType are not); numeric parameters compose into ranges. -/
def matchesFilter (q : SearchQuery) (v : VehicleRow) : Bool :=
  (match q.name with
   | none => true
   | some n => (nameKeywords n).all (fun kw => keywordMatches kw v)) &&
  optCheck q.brand (fun b => testI (stripAccents b) v.brand) &&
  optCheck q.vehicleModel (fun m => testI (stripAccents m) v.vehicleModel) &&
  optCheck q.engine (fun e => testI (stripAccents e) v.engine) &&
  yearHolds (yearCond q) v.year &&
  rangeHolds q.minPrice q.maxPrice v.price &&
  optCheck q.state (fun s => testI s v.state) &&
  optCheck q.city (fun c => testI c v.city) &&
  optCheck q.fuel (fun f => testI f v.fuel) &&
  optCheck q.transmission (fun t => testI t v.transmission) &&
  optCheck q.bodyType (fun b => testI b v.bodyType) &&
  optCheck q.color (fun c => testI (stripAccents c) v.color) &&
  rangeHolds q.minMileage q.maxMileage v.mileage

/-- The Mongo sort key for the fields of the documented `sortBy` enum
(`created_at` being the stored field name for creation time). -/
def sortKey (sortBy : String) (v : VehicleRow) : Nat :=
  if sortBy == "price" then v.price
  else if sortBy == "year" then v.year
  else if sortBy == "mileage" then v.mileage
  else v.createdAt

/-- The comparison fed to `.sort(sort)` where
`sort[sortBy] = sortOrder === 'desc' ? -1 : 1`. -/
def sortLe (sortBy sortOrder : String) (a b : VehicleRow) : Bool :=
  if sortOrder == "desc" then sortKey sortBy b ≤ sortKey sortBy a
  else sortKey sortBy a ≤ sortKey sortBy b

/-- Sort-parameter resolution of `getAllVehicles` (lines 123–129): the default
sort order is computed from the raw `sortBy` value BEFORE `'createdAt'` is
mapped to the stored field name `'created_at'`. -/
def resolveSortAllVehicles (sortByQ sortOrderQ : Option String) : String × String :=
  let sortBy := sortByQ.getD "created_at"
  let sortOrder := sortOrderQ.getD (if sortBy == "created_at" then "desc" else "asc")
  let sortBy := if sortBy == "createdAt" then "created_at" else sortBy
  (sortBy, sortOrder)

/-- Sort-parameter resolution of `getUserVehicles` (lines 262–269): here the
`'createdAt'` → `'created_at'` normalization happens BEFORE the default sort
order is computed. -/
def resolveSortUserVehicles (sortByQ sortOrderQ : Option String) : String × String :=
  let sortBy := sortByQ.getD "created_at"
  let sortBy := if sortBy == "createdAt" then "created_at" else sortBy
  let sortOrder := sortOrderQ.getD (if sortBy == "created_at" then "desc" else "asc")
  (sortBy, sortOrder)

/-- `parseInt(q) || d`: an absent or unparsable value falls back to the
default, and so does `0` (JavaScript falsiness). -/
def numParam (q : Option Nat) (d : Nat) : Nat :=
  match q with
  | some n => if n == 0 then d else n
  | none => d

/-- The paginated response shape shared by `getAllVehicles` and
`searchVehicles` (the per-item cover-image enrichment does not change the
item count and is omitted). -/
structure PageResp where
  items : List VehicleRow
  currentPage : Nat
  totalPages : Nat
  totalVehicles : Nat

/-- `GET /vehicles` (`vehicleController.getAllVehicles`): page/limit with
defaults, sort resolution as in the source, `skip((page-1)*limit).limit(limit)`
over the sorted collection, `totalPages = Math.ceil(totalVehicles / limit)`. -/
def getAllVehicles (vehicles : List VehicleRow) (pageQ limitQ : Option Nat)
    (sortByQ sortOrderQ : Option String) : PageResp :=
  let page := numParam pageQ 1
  let limit := numParam limitQ 10
  let sortBy := (resolveSortAllVehicles sortByQ sortOrderQ).1
  let sortOrder := (resolveSortAllVehicles sortByQ sortOrderQ).2
  let skip := (page - 1) * limit
  let sorted := vehicles.mergeSort (sortLe sortBy sortOrder)
  let totalVehicles := vehicles.length
  { items := (sorted.drop skip).take limit
    currentPage := page
    totalPages := Nat.ceil ((totalVehicles : ℚ) / (limit : ℚ))
    totalVehicles := totalVehicles }

/-- `GET /vehicles/search` (`vehicleController.searchVehicles`): same
pagination shape over the filtered collection; `totalVehicles` is
`countDocuments(filter)`. (This handler never maps `'createdAt'` to
`'created_at'`; its sort default matches `resolveSortAllVehicles` on the raw
value.) -/
def searchVehicles (vehicles : List VehicleRow) (q : SearchQuery)
    (pageQ limitQ : Option Nat) (sortByQ sortOrderQ : Option String) : PageResp :=
  let page := numParam pageQ 1
  let limit := numParam limitQ 10
  let sortBy := sortByQ.getD "created_at"
  let sortOrder := sortOrderQ.getD (if sortBy == "created_at" then "desc" else "asc")
  let skip := (page - 1) * limit
  let filtered := vehicles.filter (matchesFilter q)
  let sorted := filtered.mergeSort (sortLe sortBy sortOrder)
  { items := (sorted.drop skip).take limit
    currentPage := page
    totalPages := Nat.ceil ((filtered.length : ℚ) / (limit : ℚ))
    totalVehicles := filtered.length }

example :
    (refreshAccessToken [{ id := "u1", refreshToken := some (signRefresh "u1" 0) }]
      (some (.signed (signRefresh "u1" 0))) 5).1.status = 200 := by decide

example :
    (authenticateUser [] (some (.signed (signAccess "u1" 0))) 5).status = some 404 := by decide

example :
    (resetPassword [{ id := "u1", resetPasswordToken := some "tok", resetPasswordExpires := some 100 }]
      "tok" "weak" 5 (fun s => s)).1.status = 400 := by decide

/-! ## Helper lemmas -/

/-- Filtering with `p` after keeping only the elements where `p` fails yields
nothing. -/
theorem filter_neg_filter {α : Type} (p : α → Bool) (l : List α) :
    (l.filter (fun a => !(p a))).filter p = [] := by
  induction l with
  | nil => rfl
  | cons a t ih =>
    by_cases h : p a = true
    · simp [List.filter_cons, h, ih]
    · simp only [Bool.not_eq_true] at h
      simp [List.filter_cons, h, ih]

/-! ## C3: authentication middleware statuses -/

/-- C3 (counterexample): a well-formed, unexpired access token whose subject
no longer exists in the `User` collection is answered with 404
(`'User not found'`), not with 401 as the claim states. -/
theorem authenticateUser_deleted_user_404_not_401 :
    (authenticateUser [] (some (.signed ⟨"u1", 0, 3600⟩)) 5).status = some 404
    ∧ (authenticateUser [] (some (.signed ⟨"u1", 0, 3600⟩)) 5).status ≠ some 401 := by
  decide

/-- C3 (amended): the middleware answers 401 when the bearer token is missing,
malformed or expired; when the token verifies but the referenced user no
longer exists it answers 404 with the decoded id already attached; otherwise
it attaches the id and passes the request on. -/
theorem authenticateUser_status_cases (db : List UserRow) (now : Nat) (j : Jwt) :
    ((authenticateUser db none now).status = some 401)
    ∧ ((authenticateUser db (some .malformed) now).status = some 401)
    ∧ (j.exp ≤ now → (authenticateUser db (some (.signed j)) now).status = some 401)
    ∧ (now < j.exp → db.find? (fun u => u.id == j.id) = none →
        authenticateUser db (some (.signed j)) now =
          ⟨some 404, some "User not found", some j.id, false⟩)
    ∧ (now < j.exp → ∀ u, db.find? (fun w => w.id == j.id) = some u →
        authenticateUser db (some (.signed j)) now = ⟨none, none, some j.id, true⟩) := by
  refine ⟨rfl, rfl, ?_, ?_, ?_⟩
  · intro h
    simp [authenticateUser, jwtVerify, Nat.not_lt.mpr h]
  · intro h hfind
    simp [authenticateUser, jwtVerify, h, hfind]
  · intro h u hfind
    simp [authenticateUser, jwtVerify, h, hfind]

/-- C3 amended-claim witness. -/
theorem authenticateUser_status_cases_witness :
    (authenticateUser [{ id := "u1" }] (some (.signed ⟨"u2", 0, 3600⟩)) 5).status = some 404
    ∧ authenticateUser [{ id := "u1" }] (some (.signed ⟨"u1", 0, 3600⟩)) 5 =
        ⟨none, none, some "u1", true⟩ := by
  constructor
  · exact congrArg MwResult.status
      ((authenticateUser_status_cases [{ id := "u1" }] 5 ⟨"u2", 0, 3600⟩).2.2.2.1
        (by decide) (by decide))
  · exact (authenticateUser_status_cases [{ id := "u1" }] 5 ⟨"u1", 0, 3600⟩).2.2.2.2
      (by decide) { id := "u1" } (by decide)

/-! ## C4: update ownership errors -/

/-- C4 (counterexample): an update request whose body fails zod validation is
answered 400 even when the target vehicle does not exist, so the claimed
universal "status is 404" fails. -/
theorem updateVehicle_invalid_body_400 :
    (updateVehicle [] "userB" "v1" .invalid).1.status = 400
    ∧ (updateVehicle [] "userB" "v1" .invalid).1.status ≠ 404 := by
  decide

/-- C4 (amended): when the body passes the optional-fields validation and the
vehicle is missing or owned by someone else, the response is exactly the 404
used for both situations (so a non-owner cannot distinguish them), and no
update request is ever answered 403. -/
theorem updateVehicle_missing_or_unowned_404 (vehicles : List VehicleRow)
    (ownerId vehicleId : String) (patch : VehiclePatch)
    (h : vehicles.find? (fun v => v.id == vehicleId && v.ownerId == ownerId) = none) :
    (updateVehicle vehicles ownerId vehicleId (.valid patch)).1 =
      ⟨404, "Vehicle not found or you do not have permission to edit this vehicle"⟩
    ∧ ∀ body, (updateVehicle vehicles ownerId vehicleId body).1.status ≠ 403 := by
  constructor
  · simp [updateVehicle, h]
  · intro body
    cases body with
    | invalid => simp [updateVehicle]
    | valid p =>
      cases hf : vehicles.find? (fun v => v.id == vehicleId && v.ownerId == ownerId) with
      | none => simp [updateVehicle, hf]
      | some w => simp [updateVehicle, hf]

/-- C4 amended-claim witness: vehicle `v1` exists but belongs to `userA`;
`userB` gets the same 404 as for the absent `v9`. -/
theorem updateVehicle_missing_or_unowned_404_witness :
    (updateVehicle [{ id := "v1", ownerId := "userA" }] "userB" "v1" (.valid {})).1 =
      ⟨404, "Vehicle not found or you do not have permission to edit this vehicle"⟩
    ∧ (updateVehicle [{ id := "v1", ownerId := "userA" }] "userB" "v9" (.valid {})).1 =
      ⟨404, "Vehicle not found or you do not have permission to edit this vehicle"⟩ :=
  ⟨(updateVehicle_missing_or_unowned_404 [{ id := "v1", ownerId := "userA" }] "userB" "v1" {}
      (by decide)).1,
   (updateVehicle_missing_or_unowned_404 [{ id := "v1", ownerId := "userA" }] "userB" "v9" {}
      (by decide)).1⟩

/-! ## C6: single-image deletion and the remote asset -/

/-- C6 (counterexample): when `cloudinary.uploader.destroy` throws, the
handler answers 500 and the `Image` row is still in the collection — the
remote removal is not best-effort for single-image deletion. -/
theorem deleteImage_destroy_throws_500 :
    (deleteImage [{ id := "v1", ownerId := "u1" }]
        [{ id := "i1", vehicleId := "v1", cloudinaryPublicId := some "vehicles/v1/x" }]
        "u1" "v1" "i1" true).1.status = 500
    ∧ (deleteImage [{ id := "v1", ownerId := "u1" }]
        [{ id := "i1", vehicleId := "v1", cloudinaryPublicId := some "vehicles/v1/x" }]
        "u1" "v1" "i1" true).2 =
        [{ id := "i1", vehicleId := "v1", cloudinaryPublicId := some "vehicles/v1/x" }] := by
  decide

/-- C6 (amended): for an owner-gated delete of an existing image row, the
remote removal runs first and a throwing removal is fatal: the request ends
in 500 with the row retained; the row is removed (status 200) exactly when
the remote call does not throw, or unconditionally when the row stores no
Cloudinary public id (no remote call is made). -/
theorem deleteImage_remote_first_fatal (vehicles : List VehicleRow)
    (images : List ImageRow) (ownerId vehicleId imageId : String)
    (v : VehicleRow) (img : ImageRow)
    (hv : vehicles.find? (fun w => w.id == vehicleId && w.ownerId == ownerId) = some v)
    (hi : images.find? (fun i => i.id == imageId && i.vehicleId == vehicleId) = some img) :
    (img.cloudinaryPublicId.isSome = true →
      (deleteImage vehicles images ownerId vehicleId imageId true).1.status = 500
      ∧ (deleteImage vehicles images ownerId vehicleId imageId true).2 = images)
    ∧ ((deleteImage vehicles images ownerId vehicleId imageId false).1.status = 200
      ∧ (deleteImage vehicles images ownerId vehicleId imageId false).2 =
          images.filter (fun i => !(i.id == imageId)))
    ∧ (img.cloudinaryPublicId = none → ∀ b,
        (deleteImage vehicles images ownerId vehicleId imageId b).1.status = 200
        ∧ (deleteImage vehicles images ownerId vehicleId imageId b).2 =
            images.filter (fun i => !(i.id == imageId))) := by
  refine ⟨?_, ?_, ?_⟩
  · intro hs
    constructor <;> simp [deleteImage, hv, hi, hs]
  · constructor <;> simp [deleteImage, hv, hi]
  · intro hn b
    constructor <;> simp [deleteImage, hv, hi, hn]

/-- C6 amended-claim witness. -/
theorem deleteImage_remote_first_fatal_witness :
    ((deleteImage [{ id := "v1", ownerId := "u1" }]
        [{ id := "i1", vehicleId := "v1", cloudinaryPublicId := some "vehicles/v1/x" }]
        "u1" "v1" "i1" true).1.status = 500
      ∧ (deleteImage [{ id := "v1", ownerId := "u1" }]
        [{ id := "i1", vehicleId := "v1", cloudinaryPublicId := some "vehicles/v1/x" }]
        "u1" "v1" "i1" true).2 =
        [{ id := "i1", vehicleId := "v1", cloudinaryPublicId := some "vehicles/v1/x" }])
    ∧ ((deleteImage [{ id := "v1", ownerId := "u1" }]
        [{ id := "i1", vehicleId := "v1", cloudinaryPublicId := some "vehicles/v1/x" }]
        "u1" "v1" "i1" false).1.status = 200
      ∧ (deleteImage [{ id := "v1", ownerId := "u1" }]
        [{ id := "i1", vehicleId := "v1", cloudinaryPublicId := some "vehicles/v1/x" }]
        "u1" "v1" "i1" false).2 = []) := by
  have h := deleteImage_remote_first_fatal [{ id := "v1", ownerId := "u1" }]
    [{ id := "i1", vehicleId := "v1", cloudinaryPublicId := some "vehicles/v1/x" }]
    "u1" "v1" "i1" { id := "v1", ownerId := "u1" }
    { id := "i1", vehicleId := "v1", cloudinaryPublicId := some "vehicles/v1/x" }
    (by decide) (by decide)
  exact ⟨h.1 (by decide), h.2.1.1, by rw [h.2.1.2]; decide⟩

/-! ## C7: default sort order for the creation-time field -/

/-- C7: in `getAllVehicles` the default sort order is computed from the raw
query value before `'createdAt'` is normalized to `'created_at'`, so the
documented enum value `'createdAt'` gets the ascending default — contradicting
the handler's own swagger annotation ("padrão: 'desc' para createdAt") and the
sibling `getUserVehicles`, which normalizes first and yields descending. -/
theorem getAllVehicles_createdAt_default_asc :
    resolveSortAllVehicles (some "createdAt") none = ("created_at", "asc")
    ∧ resolveSortAllVehicles none none = ("created_at", "desc")
    ∧ resolveSortUserVehicles (some "createdAt") none = ("created_at", "desc") := by
  decide

/-! ## C8: accent handling in search -/

/-- C8 (counterexample): accents are stripped from the query term only, never
from the stored text, so `name=Jose` does NOT match a vehicle titled `José`,
while `name=José` does match a vehicle titled `Jose` — the normalization is
one-directional, not "both directions" as claimed. -/
theorem search_accent_one_directional :
    matchesFilter { name := some "Jose" } { id := "v1", ownerId := "u1", title := "José" } = false
    ∧ matchesFilter { name := some "José" } { id := "v1", ownerId := "u1", title := "Jose" } = true := by
  decide

/-- C8 (amended): accent-insensitivity holds in the query→stored direction
only: a single-token free-text term whose accent-stripped form occurs
case-insensitively in the stored title matches the vehicle (stored text is
compared raw, so the opposite direction can fail, as the counterexample
shows). -/
theorem search_accent_query_direction (q : String) (v : VehicleRow)
    (hq : nameKeywords q = [q])
    (ht : testI (stripAccents q) v.title = true) :
    matchesFilter { name := some q } v = true := by
  simp [matchesFilter, hq, keywordMatches, ht, optCheck, yearCond, yearHolds, rangeHolds]

/-- C8 amended-claim witness: the accented query `José` matches the stored
unaccented title `Jose`. -/
theorem search_accent_query_direction_witness :
    matchesFilter { name := some "José" } { id := "v2", ownerId := "u1", title := "Jose" } = true :=
  search_accent_query_direction "José" { id := "v2", ownerId := "u1", title := "Jose" }
    (by decide) (by decide)

/-! ## C9: account deletion orphans images -/

/-- C9: deleting a user account removes every vehicle owned by the user and
touches no `Image` row (the `images` collection is returned unchanged), while
direct vehicle deletion does cascade: it leaves no `Image` row referencing
the deleted vehicle. -/
theorem deleteUserAccount_orphans_images (users : List UserRow)
    (vehicles : List VehicleRow) (images : List ImageRow) (userId : String) :
    ((deleteUserAccount users vehicles images userId).2.2.2 = images)
    ∧ ((deleteUserAccount users vehicles images userId).2.2.1.filter
        (fun v => v.ownerId == userId) = [])
    ∧ (∀ ownerId vehicleId v,
        vehicles.find? (fun w => w.id == vehicleId && w.ownerId == ownerId) = some v →
        (deleteVehicle vehicles images ownerId vehicleId).2.2.filter
          (fun i => i.vehicleId == vehicleId) = []) := by
  refine ⟨?_, ?_, ?_⟩
  · cases h : users.find? (fun u => u.id == userId) <;> simp [deleteUserAccount, h]
  · cases h : users.find? (fun u => u.id == userId) <;>
      simp [deleteUserAccount, h, filter_neg_filter]
  · intro ownerId vehicleId v hv
    simp [deleteVehicle, hv, filter_neg_filter]

/-- C9 witness: concrete account deletion leaves the image rows of the user's
vehicle in place, while deleting the vehicle directly removes them. -/
theorem deleteUserAccount_orphans_images_witness :
    ((deleteUserAccount [{ id := "u1" }] [{ id := "v1", ownerId := "u1" }]
        [{ id := "i1", vehicleId := "v1" }] "u1").2.2.2 = [{ id := "i1", vehicleId := "v1" }])
    ∧ ((deleteUserAccount [{ id := "u1" }] [{ id := "v1", ownerId := "u1" }]
        [{ id := "i1", vehicleId := "v1" }] "u1").2.2.1.filter
          (fun v => v.ownerId == "u1") = [])
    ∧ ((deleteVehicle [{ id := "v1", ownerId := "u1" }] [{ id := "i1", vehicleId := "v1" }]
        "u1" "v1").2.2.filter (fun i => i.vehicleId == "v1") = []) := by
  have h := deleteUserAccount_orphans_images [{ id := "u1" }] [{ id := "v1", ownerId := "u1" }]
    [{ id := "i1", vehicleId := "v1" }] "u1"
  exact ⟨h.1, h.2.1, h.2.2 "u1" "v1" { id := "v1", ownerId := "u1" } (by decide)⟩

/-! ## C10: failed password validation leaves the reset state intact -/

/-- C10: when the reset token matches an unexpired user record but the new
password fails the zod password rule, the endpoint answers 400, the `User`
collection is returned unchanged (password kept, reset token and expiry
not cleared), and the very same token still completes a reset with a valid
password. -/
theorem resetPassword_invalid_pw_keeps_state (db : List UserRow)
    (resetToken pw : String) (now : Nat) (hash : String → String) (u : UserRow)
    (hfind : db.find? (resetMatch resetToken now) = some u)
    (hbad : validPassword pw = false) :
    (resetPassword db resetToken pw now hash).1.status = 400
    ∧ (resetPassword db resetToken pw now hash).2 = db
    ∧ ∀ pw', validPassword pw' = true →
        (resetPassword db resetToken pw' now hash).1.status = 200 := by
  refine ⟨?_, ?_, ?_⟩
  · simp [resetPassword, hfind, hbad]
  · simp [resetPassword, hfind, hbad]
  · intro pw' hgood
    simp [resetPassword, hfind, hgood]

/-- C10 witness: `short` is rejected with the record untouched; the same
token then succeeds with `Abcdef1!`. -/
theorem resetPassword_invalid_pw_keeps_state_witness :
    (resetPassword [{ id := "u1", resetPasswordToken := some "tok", resetPasswordExpires := some 100 }]
        "tok" "short" 5 (fun s => s)).1.status = 400
    ∧ (resetPassword [{ id := "u1", resetPasswordToken := some "tok", resetPasswordExpires := some 100 }]
        "tok" "short" 5 (fun s => s)).2 =
        [{ id := "u1", resetPasswordToken := some "tok", resetPasswordExpires := some 100 }]
    ∧ (resetPassword [{ id := "u1", resetPasswordToken := some "tok", resetPasswordExpires := some 100 }]
        "tok" "Abcdef1!" 5 (fun s => s)).1.status = 200 := by
  have h := resetPassword_invalid_pw_keeps_state
    [{ id := "u1", resetPasswordToken := some "tok", resetPasswordExpires := some 100 }]
    "tok" "short" 5 (fun s => s)
    { id := "u1", resetPasswordToken := some "tok", resetPasswordExpires := some 100 }
    (by decide) (by decide)
  exact ⟨h.1, h.2.1, h.2.2 "Abcdef1!" (by decide)⟩

/-! ## C5: pagination bounds -/

/-- C5: both the plain listing and the filtered search return at most `limit`
items per page, and `totalPages` is the ceiling of the matching count divided
by `limit` (for the search, the count of vehicles matching the filter). -/
theorem pagination_bounds (vehicles : List VehicleRow) (q : SearchQuery)
    (page limit : Nat) (sortByQ sortOrderQ : Option String) (hl : 1 ≤ limit) :
    ((getAllVehicles vehicles (some page) (some limit) sortByQ sortOrderQ).items.length ≤ limit
      ∧ (getAllVehicles vehicles (some page) (some limit) sortByQ sortOrderQ).totalPages =
          Nat.ceil ((vehicles.length : ℚ) / (limit : ℚ)))
    ∧ ((searchVehicles vehicles q (some page) (some limit) sortByQ sortOrderQ).items.length ≤ limit
      ∧ (searchVehicles vehicles q (some page) (some limit) sortByQ sortOrderQ).totalPages =
          Nat.ceil (((vehicles.filter (matchesFilter q)).length : ℚ) / (limit : ℚ))) := by
  have hne : (limit == 0) = false := beq_eq_false_iff_ne.mpr (by omega)
  refine ⟨⟨?_, ?_⟩, ⟨?_, ?_⟩⟩
  · simp [getAllVehicles, numParam, hne, List.length_take]
  · simp [getAllVehicles, numParam, hne]
  · simp [searchVehicles, numParam, hne, List.length_take]
  · simp [searchVehicles, numParam, hne]

/-- C5 witness. -/
theorem pagination_bounds_witness :
    ((getAllVehicles [{ id := "v1", ownerId := "u1" }] (some 1) (some 10) none none).items.length ≤ 10
      ∧ (getAllVehicles [{ id := "v1", ownerId := "u1" }] (some 1) (some 10) none none).totalPages =
          Nat.ceil ((([({ id := "v1", ownerId := "u1" } : VehicleRow)].length : ℚ)) / ((10 : Nat) : ℚ)))
    ∧ ((searchVehicles [{ id := "v1", ownerId := "u1" }] {} (some 1) (some 10) none none).items.length ≤ 10
      ∧ (searchVehicles [{ id := "v1", ownerId := "u1" }] {} (some 1) (some 10) none none).totalPages =
          Nat.ceil (((([({ id := "v1", ownerId := "u1" } : VehicleRow)].filter
            (matchesFilter {})).length : ℚ)) / ((10 : Nat) : ℚ))) :=
  pagination_bounds [{ id := "v1", ownerId := "u1" }] {} 1 10 none none (by decide)

/-! ## C1: the ten-image cap -/

/-- `countImages` distributes over append. -/
theorem countImages_append (a b : List ImageRow) (vid : String) :
    countImages (a ++ b) vid = countImages a vid + countImages b vid := by
  simp [countImages, List.filter_append]

/-- The rows created by one successful upload all carry the uploaded vehicle
id, so they count `files` towards that vehicle and `0` towards any other. -/
theorem countImages_fresh (vehicleId vid : String) (files base : Nat) :
    countImages ((List.range files).map (fun k =>
      ({ id := vehicleId ++ "/" ++ toString (base + k), vehicleId := vehicleId } : ImageRow))) vid
      = if (vehicleId == vid) = true then files else 0 := by
  have key : ∀ (l : List Nat), countImages (l.map (fun k =>
      ({ id := vehicleId ++ "/" ++ toString (base + k), vehicleId := vehicleId } : ImageRow))) vid
      = if (vehicleId == vid) = true then l.length else 0 := by
    intro l
    induction l with
    | nil => by_cases h : (vehicleId == vid) = true <;> simp [countImages, h]
    | cons a t ih =>
      by_cases h : (vehicleId == vid) = true <;>
        simp [countImages, List.filter_cons, h] at ih ⊢ <;> exact ih
  rw [key (List.range files), List.length_range]

/-- One upload request never pushes a vehicle's image count above 10. -/
theorem countImages_uploadImages_le (vehicles : List VehicleRow) (images : List ImageRow)
    (ownerId vehicleId vid : String) (files : Nat)
    (h : countImages images vid ≤ 10) :
    countImages (uploadImages vehicles images ownerId vehicleId files).2 vid ≤ 10 := by
  unfold uploadImages
  split
  · simpa using h
  split
  · simpa using h
  split
  · simpa using h
  split
  · simpa using h
  rename_i hle
  rw [countImages_append, countImages_fresh]
  by_cases hv : (vehicleId == vid) = true
  · have hvv : vehicleId = vid := by simpa using hv
    rw [if_pos hv]
    subst hvv
    omega
  · rw [if_neg hv]
    omega

/-- C1: an upload that passes the earlier guards (files attached, non-blank
id, vehicle owned by the caller) is rejected with a 400 whose message reports
the current image count whenever existing + new exceeds 10; consequently a
vehicle whose image count is within the cap keeps at most 10 `Image` rows
after any sequence of upload requests. -/
theorem uploadImages_cap :
    (∀ (vehicles : List VehicleRow) (images : List ImageRow) (ownerId vehicleId : String)
      (files : Nat) (v : VehicleRow),
      files ≠ 0 →
      blankStr vehicleId = false →
      vehicles.find? (fun w => w.id == vehicleId && w.ownerId == ownerId) = some v →
      10 < countImages images vehicleId + files →
      (uploadImages vehicles images ownerId vehicleId files).1 =
        ⟨400, "Cannot upload more than 10 images. You already have " ++
              toString (countImages images vehicleId) ++ " images."⟩)
    ∧ (∀ (vehicles : List VehicleRow) (reqs : List UploadReq) (images : List ImageRow)
        (vid : String), countImages images vid ≤ 10 →
        countImages (runUploads vehicles reqs images) vid ≤ 10) := by
  constructor
  · intro vehicles images ownerId vehicleId files v hf hb hfind hover
    have hf' : (files == 0) = false := beq_eq_false_iff_ne.mpr hf
    simp [uploadImages, hf', hb, hfind, hover]
  · intro vehicles reqs
    induction reqs with
    | nil => intro images vid h; simpa [runUploads] using h
    | cons r rs ih =>
      intro images vid h
      have hstep := countImages_uploadImages_le vehicles images r.ownerId r.vehicleId vid r.files h
      simpa [runUploads, List.foldl_cons] using ih _ vid hstep

/-- C1 witness: with 9 existing images, uploading 2 more is rejected with the
message reporting the count 9; and a sequence of uploads starting from an
empty collection never exceeds 10 rows. -/
theorem uploadImages_cap_witness :
    (uploadImages [{ id := "v1", ownerId := "u1" }]
        ((List.range 9).map (fun k => { id := toString k, vehicleId := "v1" }))
        "u1" "v1" 2).1 =
      ⟨400, "Cannot upload more than 10 images. You already have " ++
            toString (countImages ((List.range 9).map
              (fun k => ({ id := toString k, vehicleId := "v1" } : ImageRow))) "v1") ++ " images."⟩
    ∧ countImages (runUploads [{ id := "v1", ownerId := "u1" }]
        [⟨"u1", "v1", 6⟩, ⟨"u1", "v1", 4⟩, ⟨"u1", "v1", 4⟩] []) "v1" ≤ 10 :=
  ⟨uploadImages_cap.1 [{ id := "v1", ownerId := "u1" }]
      ((List.range 9).map (fun k => { id := toString k, vehicleId := "v1" }))
      "u1" "v1" 2 { id := "v1", ownerId := "u1" } (by decide) (by decide) (by decide) (by decide),
   uploadImages_cap.2 [{ id := "v1", ownerId := "u1" }]
      [⟨"u1", "v1", 6⟩, ⟨"u1", "v1", 4⟩, ⟨"u1", "v1", 4⟩] [] "v1" (by decide)⟩

/-! ## C2: single-active refresh token -/

/-- With pairwise distinct user ids (the `_id` uniqueness of the collection),
`findById` on a member's id returns exactly that member. -/
theorem find?_id_of_nodup (db : List UserRow) (u : UserRow)
    (hnd : (db.map UserRow.id).Nodup) (hu : u ∈ db) :
    db.find? (fun w => w.id == u.id) = some u := by
  induction db with
  | nil => cases hu
  | cons a t ih =>
    rw [List.map_cons] at hnd
    have hnd' := List.nodup_cons.mp hnd
    rcases List.mem_cons.mp hu with rfl | hut
    · simp [List.find?_cons]
    · by_cases h : (a.id == u.id) = true
      · exfalso
        have hmem : u.id ∈ t.map UserRow.id := List.mem_map_of_mem _ hut
        have ha : a.id = u.id := by simpa using h
        exact hnd'.1 (ha ▸ hmem)
      · rw [List.find?_cons_of_neg t h]
        exact ih hnd'.2 hut

/-- A refresh attempt with a token different from the one stored on the
matching user record is answered 401 (whether or not the token is expired). -/
theorem refreshAccessToken_mismatch_401 (db : List UserRow) (j : Jwt) (now : Nat)
    (hnd : (db.map UserRow.id).Nodup) (u : UserRow) (hu : u ∈ db)
    (hid : u.id = j.id) (hne : u.refreshToken ≠ some j) :
    (refreshAccessToken db (some (.signed j)) now).1.status = 401 := by
  by_cases hexp : now < j.exp
  · have hfind : db.find? (fun w => w.id == j.id) = some u := by
      simpa [hid] using find?_id_of_nodup db u hnd hu
    have hbe : (u.refreshToken == some j) = false := beq_eq_false_iff_ne.mpr hne
    simp [refreshAccessToken, jwtVerify, hexp, hfind, hbe]
  · simp [refreshAccessToken, jwtVerify, hexp]

/-- A 200 from the refresh endpoint means: the token verified, the decoded id
resolved to a user, the stored refresh token was exactly the presented one,
and the stored token was rotated to `signRefresh` of the same user at `now`. -/
theorem refreshAccessToken_success_shape (db : List UserRow) (j : Jwt) (now : Nat)
    (h : (refreshAccessToken db (some (.signed j)) now).1.status = 200) :
    now < j.exp ∧ ∃ u, db.find? (fun w => w.id == j.id) = some u ∧ u.refreshToken = some j ∧
      (refreshAccessToken db (some (.signed j)) now).2 =
        db.map (fun w => if w.id == u.id then
          { w with refreshToken := some (signRefresh u.id now) } else w) := by
  by_cases hexp : now < j.exp
  · refine ⟨hexp, ?_⟩
    cases hfind : db.find? (fun w => w.id == j.id) with
    | none => simp [refreshAccessToken, jwtVerify, hexp, hfind] at h
    | some u =>
      by_cases hbe : (u.refreshToken == some j) = true
      · exact ⟨u, rfl, by simpa using hbe,
          by simp [refreshAccessToken, jwtVerify, hexp, hfind, hbe]⟩
      · simp [refreshAccessToken, jwtVerify, hexp, hfind, hbe] at h
  · simp [refreshAccessToken, jwtVerify, hexp] at h

/-- C2: (i) a refresh succeeds only when the presented token verifies and
equals the token stored on the resolved user record; (ii) whenever the stored
token differs from the presented one — in particular after it has been
superseded — the request fails with 401; (iii) concretely, after a successful
refresh rotates the stored token, presenting the old token again at any later
time is answered 401. -/
theorem refreshAccessToken_single_active (db : List UserRow) (j : Jwt) (now : Nat) :
    ((refreshAccessToken db (some (.signed j)) now).1.status = 200 →
      now < j.exp ∧ ∃ u, db.find? (fun w => w.id == j.id) = some u ∧ u.refreshToken = some j)
    ∧ ((db.map UserRow.id).Nodup → ∀ u, u ∈ db → u.id = j.id → u.refreshToken ≠ some j →
      (refreshAccessToken db (some (.signed j)) now).1.status = 401)
    ∧ ((db.map UserRow.id).Nodup →
      (refreshAccessToken db (some (.signed j)) now).1.status = 200 →
      j ≠ signRefresh j.id now →
      ∀ now', (refreshAccessToken (refreshAccessToken db (some (.signed j)) now).2
        (some (.signed j)) now').1.status = 401) := by
  refine ⟨?_, ?_, ?_⟩
  · intro h
    obtain ⟨hexp, u, hfind, hstored, _⟩ := refreshAccessToken_success_shape db j now h
    exact ⟨hexp, u, hfind, hstored⟩
  · intro hnd u hu hid hne
    exact refreshAccessToken_mismatch_401 db j now hnd u hu hid hne
  · intro hnd h200 hnew now'
    obtain ⟨hexp, u, hfind, hstored, hsnd⟩ := refreshAccessToken_success_shape db j now h200
    have huid : u.id = j.id := by
      simpa using List.find?_some hfind
    have humem : u ∈ db := List.mem_of_find?_eq_some hfind
    rw [hsnd]
    have hpres : ∀ w : UserRow,
        (if w.id == u.id then { w with refreshToken := some (signRefresh u.id now) } else w).id
          = w.id := by
      intro w
      by_cases hw : (w.id == u.id) = true <;> simp [hw]
    have hids : ((db.map (fun w => if w.id == u.id then
        { w with refreshToken := some (signRefresh u.id now) } else w)).map UserRow.id)
          = db.map UserRow.id := by
      rw [List.map_map]
      exact List.map_congr_left (fun w _ => hpres w)
    have hmem' : ({ u with refreshToken := some (signRefresh u.id now) } : UserRow) ∈
        db.map (fun w => if w.id == u.id then
          { w with refreshToken := some (signRefresh u.id now) } else w) := by
      have := List.mem_map_of_mem (fun w : UserRow => if w.id == u.id then
        { w with refreshToken := some (signRefresh u.id now) } else w) humem
      simpa using this
    refine refreshAccessToken_mismatch_401 _ j now' (by rw [hids]; exact hnd)
      { u with refreshToken := some (signRefresh u.id now) } hmem' (by simpa using huid) ?_
    intro hcontra
    apply hnew
    have hsr : signRefresh u.id now = j := by
      simpa using hcontra
    exact (huid ▸ hsr).symm

/-- C2 witness: a refresh with the stored token succeeds and rotates it;
replaying the very same token immediately afterwards is answered 401. -/
theorem refreshAccessToken_single_active_witness :
    (refreshAccessToken
      (refreshAccessToken [{ id := "u1", refreshToken := some ⟨"u1", 0, 604800⟩ }]
        (some (.signed ⟨"u1", 0, 604800⟩)) 5).2
      (some (.signed ⟨"u1", 0, 604800⟩)) 6).1.status = 401 :=
  (refreshAccessToken_single_active [{ id := "u1", refreshToken := some ⟨"u1", 0, 604800⟩ }]
    ⟨"u1", 0, 604800⟩ 5).2.2 (by decide) (by decide) (by decide) 6

end PontoCarro
